import Mathlib

/-!
Shallow embedding of the error-translation and response-normalization layer
of the heygen-streaming-api repository (src/api/streaming/*.py).

Each endpoint handler is embedded as pure functions: a success-path
normalizer translated from the body of the `try` block, and an `_onError`
mapper translated from the chain of `except` clauses.  Machine-level
concerns (the event loop, the HTTP transport, logging) are outside the
embedding; the upstream client call is passed in as data (an `Except`
value, or a function argument where the forwarded argument matters).
-/

/-- Modelled from the spec: the exception taxonomy of the missing module
src/api/streaming/_exceptions.py (spec section 4.1 and section 7).  Every
typed kind is a subclass of the generic API error; SessionNotFoundError is
a subclass of NotFoundError; `otherException` stands for any exception
outside the taxonomy (programming errors, unwrapped network failures). -/
inductive ExcClass where
  | heyGenAPIError
  | authenticationError
  | heyGenValidationError
  | notFoundError
  | sessionNotFoundError
  | rateLimitError
  | serverError
  | otherException
deriving DecidableEq, BEq

/-- Modelled from the spec: the Python subclass relation on the taxonomy
(reflexive; SessionNotFoundError < NotFoundError; every taxonomy kind
< HeyGenAPIError; `otherException` unrelated to the taxonomy). -/
def ExcClass.subclassOf : ExcClass → ExcClass → Bool
  | .heyGenAPIError, c => c == .heyGenAPIError
  | .authenticationError, c => c == .authenticationError || c == .heyGenAPIError
  | .heyGenValidationError, c => c == .heyGenValidationError || c == .heyGenAPIError
  | .notFoundError, c => c == .notFoundError || c == .heyGenAPIError
  | .sessionNotFoundError, c =>
      c == .sessionNotFoundError || c == .notFoundError || c == .heyGenAPIError
  | .rateLimitError, c => c == .rateLimitError || c == .heyGenAPIError
  | .serverError, c => c == .serverError || c == .heyGenAPIError
  | .otherException, c => c == .otherException

/-- Modelled from the spec: a raised exception instance.  `status_code` is
`none` when the instance carries no status_code attribute (the handlers
read it with `getattr(e, "status_code", 500)`); likewise `details` models
`getattr(e, "details", \x7b\x7d)`. -/
structure PyError where
  cls : ExcClass
  msg : String
  status_code : Option Nat
  details : Option (List (String × String))
deriving DecidableEq

/-- Python isinstance on the modelled hierarchy. -/
def isinst (e : PyError) (c : ExcClass) : Bool :=
  e.cls.subclassOf c

/-- The value bound to a key of an HTTPException detail object: either a
mapping (the usual `details` payload) or a plain string. -/
inductive DetailValue where
  | mapping (m : List (String × String))
  | text (s : String)
deriving DecidableEq

/-- The `detail` argument of a raised fastapi HTTPException: either a bare
string or an object with a `message` field and an optional `details`
field. -/
inductive HTTPDetail where
  | str (s : String)
  | obj (message : String) (details : Option DetailValue)
deriving DecidableEq

def HTTPDetail.isObj : HTTPDetail → Bool
  | .obj _ _ => true
  | .str _ => false

def HTTPDetail.messageText : HTTPDetail → String
  | .str s => s
  | .obj m _ => m

/-- A raised fastapi HTTPException: status code plus detail. -/
structure HTTPException where
  status_code : Nat
  detail : HTTPDetail
deriving DecidableEq

/-- Except-chain of send_task (src/api/streaming/send_task.py lines
112-147). -/
def send_task_onError (e : PyError) : HTTPException :=
  if isinst e .heyGenValidationError then
    ⟨400, .obj e.msg (some (.mapping (e.details.getD [])))⟩
  else if isinst e .authenticationError then
    ⟨401, .obj e.msg none⟩
  else if isinst e .sessionNotFoundError then
    ⟨404, .obj e.msg none⟩
  else if isinst e .rateLimitError then
    ⟨429, .obj e.msg none⟩
  else if isinst e .serverError || isinst e .heyGenAPIError then
    ⟨e.status_code.getD 500, .obj e.msg (some (.mapping (e.details.getD [])))⟩
  else
    ⟨500, .obj "Internal server error" none⟩

/-- Except-chain of create_session_token (create_session_token.py lines
112-139); note every detail is the bare string str(e). -/
def create_session_token_onError (e : PyError) : HTTPException :=
  if isinst e .authenticationError then
    ⟨401, .str e.msg⟩
  else if isinst e .sessionNotFoundError then
    ⟨404, .str e.msg⟩
  else if isinst e .rateLimitError then
    ⟨429, .str e.msg⟩
  else if isinst e .serverError || isinst e .heyGenAPIError then
    ⟨e.status_code.getD 500, .str e.msg⟩
  else
    ⟨500, .str "An unexpected error occurred"⟩

/-- Except-chain of keep_alive (keep_alive.py lines 100-127). -/
def keep_alive_onError (e : PyError) : HTTPException :=
  if isinst e .authenticationError then
    ⟨401, .str e.msg⟩
  else if isinst e .sessionNotFoundError then
    ⟨404, .str e.msg⟩
  else if isinst e .rateLimitError then
    ⟨429, .str e.msg⟩
  else if isinst e .serverError || isinst e .heyGenAPIError then
    ⟨e.status_code.getD 500, .str e.msg⟩
  else
    ⟨500, .str "An unexpected error occurred"⟩

/-- Except-chain of close_session (close_session.py lines 67-94). -/
def close_session_onError (e : PyError) : HTTPException :=
  if isinst e .authenticationError then
    ⟨401, .str e.msg⟩
  else if isinst e .sessionNotFoundError then
    ⟨404, .str e.msg⟩
  else if isinst e .rateLimitError then
    ⟨429, .str e.msg⟩
  else if isinst e .serverError || isinst e .heyGenAPIError then
    ⟨e.status_code.getD 500, .str e.msg⟩
  else
    ⟨500, .str "An unexpected error occurred"⟩

/-- Except-chain of interrupt_task (interrupt_task.py lines 71-98). -/
def interrupt_task_onError (e : PyError) : HTTPException :=
  if isinst e .authenticationError then
    ⟨401, .str e.msg⟩
  else if isinst e .sessionNotFoundError then
    ⟨404, .str e.msg⟩
  else if isinst e .rateLimitError then
    ⟨429, .str e.msg⟩
  else if isinst e .serverError || isinst e .heyGenAPIError then
    ⟨e.status_code.getD 500, .str e.msg⟩
  else
    ⟨500, .str "An unexpected error occurred"⟩

/-- Except-chain of list_avatars (list_avatars.py lines 115-144). -/
def list_avatars_onError (e : PyError) : HTTPException :=
  if isinst e .heyGenValidationError then
    ⟨400, .obj e.msg (some (.mapping (e.details.getD [])))⟩
  else if isinst e .authenticationError then
    ⟨401, .obj e.msg none⟩
  else if isinst e .rateLimitError then
    ⟨429, .obj e.msg none⟩
  else if isinst e .serverError || isinst e .heyGenAPIError then
    ⟨e.status_code.getD 500, .obj e.msg (some (.mapping (e.details.getD [])))⟩
  else
    ⟨500, .obj "Internal server error" none⟩

/-- Except-chain of list_sessions_active (list_sessions_active.py lines
92-121). -/
def list_sessions_active_onError (e : PyError) : HTTPException :=
  if isinst e .heyGenValidationError then
    ⟨400, .obj e.msg (some (.mapping (e.details.getD [])))⟩
  else if isinst e .authenticationError then
    ⟨401, .obj e.msg none⟩
  else if isinst e .rateLimitError then
    ⟨429, .obj e.msg none⟩
  else if isinst e .serverError || isinst e .heyGenAPIError then
    ⟨e.status_code.getD 500, .obj e.msg (some (.mapping (e.details.getD [])))⟩
  else
    ⟨500, .obj "Internal server error" none⟩

/-- Except-chain of list_sessions_history (list_sessions_history.py lines
151-180). -/
def list_sessions_history_onError (e : PyError) : HTTPException :=
  if isinst e .heyGenValidationError then
    ⟨400, .obj e.msg (some (.mapping (e.details.getD [])))⟩
  else if isinst e .authenticationError then
    ⟨401, .obj e.msg none⟩
  else if isinst e .rateLimitError then
    ⟨429, .obj e.msg none⟩
  else if isinst e .serverError || isinst e .heyGenAPIError then
    ⟨e.status_code.getD 500, .obj e.msg (some (.mapping (e.details.getD [])))⟩
  else
    ⟨500, .obj "Internal server error" none⟩

/-- Except-chain of create_streaming_session (new_sessions.py lines
69-110).  The pydantic ValidationError clause (HTTP 422) concerns the local
request validation, not an upstream-raised taxonomy kind, and so does not
appear on this upstream-error path. -/
def new_sessions_onError (e : PyError) : HTTPException :=
  if isinst e .heyGenValidationError then
    ⟨400, .obj e.msg (some (.mapping (e.details.getD [])))⟩
  else if isinst e .authenticationError then
    ⟨401, .obj e.msg none⟩
  else if isinst e .notFoundError then
    ⟨404, .obj e.msg (some (.mapping (e.details.getD [])))⟩
  else if isinst e .rateLimitError then
    ⟨429, .obj e.msg none⟩
  else if isinst e .serverError || isinst e .heyGenAPIError then
    ⟨e.status_code.getD 500, .obj e.msg (some (.mapping (e.details.getD [])))⟩
  else
    ⟨500, .obj "Internal server error" none⟩

/-- Except-chain of start_streaming_session (start_session.py lines
87-122); the NotFoundError clause emits a fixed message built from the
request session id, not str(e). -/
def start_session_onError (sid : String) (e : PyError) : HTTPException :=
  if isinst e .heyGenValidationError then
    ⟨400, .obj e.msg (some (.mapping (e.details.getD [])))⟩
  else if isinst e .authenticationError then
    ⟨401, .obj e.msg none⟩
  else if isinst e .notFoundError then
    ⟨404, .obj ("Session not found: " ++ sid) none⟩
  else if isinst e .rateLimitError then
    ⟨429, .obj e.msg none⟩
  else if isinst e .serverError || isinst e .heyGenAPIError then
    ⟨e.status_code.getD 500, .obj e.msg (some (.mapping (e.details.getD [])))⟩
  else
    ⟨500, .obj "Internal server error" none⟩

/-- Task modes of send_task.py (class TaskMode). -/
inductive TaskMode where
  | sync
  | async
deriving DecidableEq

/-- Task types of send_task.py (class TaskType). -/
inductive TaskType where
  | repeat
  | chat
deriving DecidableEq

/-- Parse a task_mode string into the TaskMode enumeration. -/
def TaskMode.parse (s : String) : Option TaskMode :=
  if s = "sync" then some .sync
  else if s = "async" then some .async
  else none

/-- Parse a task_type string into the TaskType enumeration. -/
def TaskType.parse (s : String) : Option TaskType :=
  if s = "repeat" then some .repeat
  else if s = "chat" then some .chat
  else none

/-- The validated SendTaskRequest model (send_task.py lines 52-72). -/
structure SendTaskRequest where
  session_id : String
  text : String
  task_mode : TaskMode
  task_type : TaskType
deriving DecidableEq

/-- Python str.strip on the character list: drop whitespace from both
ends. -/
def stripChars (l : List Char) : List Char :=
  ((l.dropWhile Char.isWhitespace).reverse.dropWhile Char.isWhitespace).reverse

/-- Python str.strip. -/
def pyStrip (s : String) : String := ⟨stripChars s.data⟩

/-- Python str.upper, on the ASCII range the handlers use. -/
def pyUpper (s : String) : String := ⟨s.data.map Char.toUpper⟩

/-- Field validator of SendTaskRequest.text (send_task.py lines 66-72):
strip, reject whitespace-only, return the stripped value. -/
def validate_text (v : String) : Except String String :=
  if pyStrip v = "" then .error "Text cannot be empty or whitespace"
  else .ok (pyStrip v)

/-- Pydantic parsing of a SendTaskRequest body: the min_length=1 constraint
on text runs first, then the text field validator; task_mode and task_type
default to sync and repeat and reject unknown strings. -/
def SendTaskRequest.parse (session_id text : String)
    (task_mode task_type : Option String) : Except String SendTaskRequest :=
  if text.length < 1 then .error "String should have at least 1 character"
  else
    match validate_text text with
    | .error e => .error e
    | .ok t =>
      match TaskMode.parse (task_mode.getD "sync"), TaskType.parse (task_type.getD "repeat") with
      | some m, some ty => .ok ⟨session_id, t, m, ty⟩
      | _, _ => .error "Input should be a valid enumeration member"

/-- The text forwarded to heygen_client.send_task: the handler passes the
parsed request object on unchanged (send_task.py line 109), so the
forwarded text is the validated request text; an error means the request
was rejected before any upstream call. -/
def send_task_forwarded_text (session_id text : String) : Except String String :=
  (SendTaskRequest.parse session_id text none none).map (fun r => r.text)

/-- Unused request model CreateTokenRequest (create_session_token.py lines
28-44): its expires_in field carries the bounds ge=60, le=86400 and is
optional.  The endpoint never instantiates this model. -/
def CreateTokenRequest.check_expires : Option Int → Bool
  | none => true
  | some v => 60 ≤ v && v ≤ 86400

/-- Raw token data mapping of the upstream create-session-token payload;
`token` is `none` when the mapping lacks the token key. -/
structure RawTokenData where
  token : Option String
deriving DecidableEq

/-- Raw upstream payload of create_session_token; `data` is `none` when
the payload lacks the data key. -/
structure RawTokenPayload where
  data : Option RawTokenData
  error : Option (List (String × String))
deriving DecidableEq

/-- Response model CreateTokenResponse (create_session_token.py lines
60-66). -/
structure CreateTokenResponse where
  token : String
  error : Option (List (String × String))
deriving DecidableEq

/-- The expires_in value the handler passes to
heygen_client.create_session_token: the route signature is
`expires_in: Optional[int] = 3600` with no bounds (create_session_token.py
line 85), so an omitted query parameter becomes 3600 and any supplied
integer is forwarded as given. -/
def create_session_token_upstream_arg (expires_in : Option Int) : Int :=
  expires_in.getD 3600

/-- Success-path normalization of create_session_token
(create_session_token.py lines 107-110):
token = response.get("data", \x7b\x7d).get("token", ""),
error = response.get("error"). -/
def create_session_token_success (resp : RawTokenPayload) : CreateTokenResponse :=
  ⟨((resp.data.getD ⟨none⟩).token).getD "", resp.error⟩

/-- Full create_session_token handler (lines 83-139): resolve expires_in,
call the upstream client with it, normalize the payload into a 201
response, or map a raised error through the except-chain. -/
def create_session_token (expires_in : Option Int)
    (up : Int → Except PyError RawTokenPayload) :
    Except HTTPException (Nat × CreateTokenResponse) :=
  match up (create_session_token_upstream_arg expires_in) with
  | .ok resp => .ok (201, create_session_token_success resp)
  | .error e => .error (create_session_token_onError e)

/-- Response model InterruptTaskResponse (interrupt_task.py lines 26-30). -/
structure InterruptTaskResponse where
  success : Bool
  message : String
deriving DecidableEq

/-- Full interrupt_task handler (interrupt_task.py lines 47-98): the
upstream result payload is discarded; on any non-raising upstream call the
response is the fixed success value with HTTP 200. -/
def interrupt_task (up : Except PyError (List (String × String))) :
    Except HTTPException (Nat × InterruptTaskResponse) :=
  match up with
  | .ok _ => .ok (200, ⟨true, "Interrupt signal sent successfully"⟩)
  | .error e => .error (interrupt_task_onError e)

/-- Field validator AvatarInfo.validate_status (list_avatars.py lines
42-47): strip, reject empty, upper-case. -/
def validate_status (v : String) : Except String String :=
  if pyStrip v = "" then .error "Status cannot be empty"
  else .ok (pyUpper (pyStrip v))

/-- Validated AvatarInfo model (list_avatars.py lines 29-47). -/
structure AvatarInfo where
  avatar_id : String
  created_at : Int
  is_public : Bool
  status : String
deriving DecidableEq

/-- Raw upstream avatar entry: each field is `none` when the mapping lacks
that key. -/
structure RawAvatarEntry where
  avatar_id : Option String
  created_at : Option Int
  is_public : Option Bool
  status : Option String
deriving DecidableEq

/-- Construction of one AvatarInfo from a raw entry (list_avatars.py lines
105-110): avatar.get("avatar_id") and avatar.get("created_at") become None
when absent and then fail pydantic validation of the required fields;
is_public defaults to True, status defaults to "ACTIVE" and passes through
validate_status. -/
def parseAvatarInfo (a : RawAvatarEntry) : Except String AvatarInfo :=
  match a.avatar_id, a.created_at with
  | some aid, some ca =>
    match validate_status (a.status.getD "ACTIVE") with
    | .ok st => .ok ⟨aid, ca, a.is_public.getD true, st⟩
    | .error e => .error e
  | _, _ => .error "Input should be a valid value"

/-- Validated SessionInfo model (list_sessions_active.py lines 29-38); its
status field has no validator. -/
structure SessionInfo where
  session_id : String
  status : String
  created_at : Int
deriving DecidableEq

/-- Raw upstream active-session entry. -/
structure RawSessionEntry where
  session_id : Option String
  status : Option String
  created_at : Option Int
deriving DecidableEq

/-- Construction of one SessionInfo from a raw entry
(list_sessions_active.py lines 83-87): session_id and created_at are
required (None fails pydantic validation); status defaults to "ACTIVE" and
is stored as given. -/
def parseSessionInfo (s : RawSessionEntry) : Except String SessionInfo :=
  match s.session_id, s.created_at with
  | some sid, some ca => .ok ⟨sid, s.status.getD "ACTIVE", ca⟩
  | _, _ => .error "Input should be a valid value"

/-- Validated SessionHistoryInfo model (list_sessions_history.py lines
30-48); its status field has no validator. -/
structure SessionHistoryInfo where
  session_id : String
  created_at : Int
  ended_at : Option Int
  status : String
  duration_seconds : Int
  avatar_id : Option String
  voice_name : Option String
deriving DecidableEq

/-- Raw upstream session-history entry: a field is `none` when the mapping
lacks that key. -/
structure RawHistoryEntry where
  session_id : Option String
  created_at : Option Int
  ended_at : Option Int
  status : Option String
  duration_seconds : Option Int
  avatar_id : Option String
  voice_name : Option String
deriving DecidableEq

/-- PaginationInfo model (list_sessions_history.py lines 51-56). -/
structure PaginationInfo where
  total : Int
  limit : Int
  offset : Int
  has_more : Bool
deriving DecidableEq

/-- Response model of the history endpoint (list_sessions_history.py lines
59-64). -/
structure ListSessionsHistoryResponse where
  code : Int
  message : String
  data : List SessionHistoryInfo
  pagination : PaginationInfo
deriving DecidableEq

/-- Raw pagination mapping of the upstream history payload. -/
structure RawPagination where
  total : Option Int
  limit : Option Int
  offset : Option Int
  has_more : Option Bool
deriving DecidableEq

/-- Raw upstream payload of list_sessions_history. -/
structure RawHistoryPayload where
  code : Option Int
  message : Option String
  data : Option (List RawHistoryEntry)
  pagination : Option RawPagination
deriving DecidableEq

/-- The list comprehension of list_sessions_history.py lines 130-142: an
entry is kept only when it has both the session_id and the created_at key;
kept entries get defaults status="COMPLETED" and duration_seconds=0. -/
def normalizeHistoryEntry (s : RawHistoryEntry) : Option SessionHistoryInfo :=
  match s.session_id, s.created_at with
  | some sid, some ca =>
      some ⟨sid, ca, s.ended_at, s.status.getD "COMPLETED",
            s.duration_seconds.getD 0, s.avatar_id, s.voice_name⟩
  | _, _ => none

def normalizeHistoryData (raw : List RawHistoryEntry) : List SessionHistoryInfo :=
  raw.filterMap normalizeHistoryEntry

/-- Success-path normalization of list_sessions_history
(list_sessions_history.py lines 127-149): data is filtered and defaulted
per entry; pagination.limit and pagination.offset come from the request
parameters, while total and has_more come from the payload. -/
def list_sessions_history_success (resp : RawHistoryPayload)
    (limit offset : Int) : ListSessionsHistoryResponse :=
  { code := resp.code.getD 100
    message := (resp.message).getD "Success"
    data := normalizeHistoryData (resp.data.getD [])
    pagination :=
      { total := ((resp.pagination.getD ⟨none, none, none, none⟩).total).getD 0
        limit := limit
        offset := offset
        has_more := ((resp.pagination.getD ⟨none, none, none, none⟩).has_more).getD false } }

/-- The ten endpoint handlers of src/api/streaming. -/
inductive HandlerId where
  | send_task
  | create_session_token
  | keep_alive
  | close_session
  | interrupt_task
  | list_avatars
  | list_sessions_active
  | list_sessions_history
  | new_sessions
  | start_session
deriving DecidableEq

/-- Dispatch to the except-chain of each handler; the session id argument
is only read by start_session. -/
def handlerOnError : HandlerId → String → PyError → HTTPException
  | .send_task, _, e => send_task_onError e
  | .create_session_token, _, e => create_session_token_onError e
  | .keep_alive, _, e => keep_alive_onError e
  | .close_session, _, e => close_session_onError e
  | .interrupt_task, _, e => interrupt_task_onError e
  | .list_avatars, _, e => list_avatars_onError e
  | .list_sessions_active, _, e => list_sessions_active_onError e
  | .list_sessions_history, _, e => list_sessions_history_onError e
  | .new_sessions, _, e => new_sessions_onError e
  | .start_session, sid, e => start_session_onError sid e

/-- Handlers that install a dedicated HeyGenValidationError clause. -/
def catchesValidation : HandlerId → Bool
  | .send_task | .list_avatars | .list_sessions_active
  | .list_sessions_history | .new_sessions | .start_session => true
  | _ => false

/-- Handlers in which a SessionNotFoundError reaches a 404 clause (its own
clause, or the NotFoundError clause of new_sessions and start_session). -/
def mapsSessionNotFoundTo404 : HandlerId → Bool
  | .list_avatars | .list_sessions_active | .list_sessions_history => false
  | _ => true

/-- Handlers that install a clause for the generic NotFoundError. -/
def mapsNotFoundTo404 : HandlerId → Bool
  | .new_sessions | .start_session => true
  | _ => false

/-- The fixed message of the catch-all clause of each handler. -/
def genericMessage : HandlerId → String
  | .create_session_token | .keep_alive
  | .close_session | .interrupt_task => "An unexpected error occurred"
  | _ => "Internal server error"

/-- Amended claim C1, status part, stated in the words of the amendment:
kinds with a dedicated clause follow the section 4.1 table; kinds without
one fall through to the Server/GenericAPI clause and return the carried
status_code when present, else 500; unclassified exceptions return 500. -/
def specAmendedStatus (h : HandlerId) (e : PyError) : Nat :=
  match e.cls with
  | .authenticationError => 401
  | .heyGenValidationError =>
      if catchesValidation h then 400 else e.status_code.getD 500
  | .sessionNotFoundError =>
      if mapsSessionNotFoundTo404 h then 404 else e.status_code.getD 500
  | .notFoundError =>
      if mapsNotFoundTo404 h then 404 else e.status_code.getD 500
  | .rateLimitError => 429
  | .serverError => e.status_code.getD 500
  | .heyGenAPIError => e.status_code.getD 500
  | .otherException => 500

/-- Amended claim C1, message part: the detail carries the original error
text for every classified kind, except the NotFoundError clause of
start_session (a fixed text built from the session id) and the catch-all
clause (a fixed generic message). -/
def specAmendedMessage (h : HandlerId) (sid : String) (e : PyError) : String :=
  match e.cls with
  | .otherException => genericMessage h
  | .notFoundError | .sessionNotFoundError =>
      if h = .start_session ∧ mapsNotFoundTo404 h then "Session not found: " ++ sid
      else e.msg
  | _ => e.msg

/-- Helper: a string of length zero is the empty string. -/
theorem string_eq_empty_of_length_zero {s : String} (h : s.length = 0) : s = "" := by
  cases s with
  | mk data =>
    cases data with
    | nil => rfl
    | cons a t => simp [String.length] at h

/-- Claim C6: for send_task, a text that is empty after stripping is
rejected before any upstream call, and a non-empty text with surrounding
whitespace is accepted with the stripped value being what is forwarded to
the upstream client. -/
theorem c6_send_task_text_trim (sid text : String) :
    (pyStrip text = "" → (send_task_forwarded_text sid text).toOption = none) ∧
    (pyStrip text ≠ "" → send_task_forwarded_text sid text = .ok (pyStrip text)) := by
  constructor
  · intro h
    unfold send_task_forwarded_text SendTaskRequest.parse
    by_cases hl : text.length < 1
    · simp [hl, Except.map, Except.toOption]
    · simp [hl, validate_text, h, Except.map, Except.toOption]
  · intro h
    have hl : ¬ text.length < 1 := by
      intro hc
      have h0 : text = "" := string_eq_empty_of_length_zero (Nat.lt_one_iff.mp hc)
      rw [h0] at h
      exact h rfl
    unfold send_task_forwarded_text SendTaskRequest.parse
    simp [hl, validate_text, h, TaskMode.parse, TaskType.parse, Except.map]

/-- Witness for C6 at the inputs of the claim: text "   " is rejected and
text "  hi  " is forwarded as "hi". -/
theorem c6_send_task_text_trim_witness :
    (send_task_forwarded_text "sess" "   ").toOption = none ∧
    send_task_forwarded_text "sess" "  hi  " = .ok "hi" := by
  constructor
  · exact (c6_send_task_text_trim "sess" "   ").1 (by decide)
  · have h := (c6_send_task_text_trim "sess" "  hi  ").2 (by decide)
    rw [show pyStrip "  hi  " = "hi" by decide] at h
    exact h

/-- Claim C7: a raw entry missing the status key gets the per-resource
fallback: "ACTIVE" for an avatar, "ACTIVE" for an active session,
"COMPLETED" for a history session. -/
theorem c7_status_fallbacks (aid sid : String) (ca : Int) (ip : Option Bool) :
    parseAvatarInfo ⟨some aid, some ca, ip, none⟩ = .ok ⟨aid, ca, ip.getD true, "ACTIVE"⟩ ∧
    parseSessionInfo ⟨some sid, none, some ca⟩ = .ok ⟨sid, "ACTIVE", ca⟩ ∧
    normalizeHistoryEntry ⟨some sid, some ca, none, none, none, none, none⟩ =
      some ⟨sid, ca, none, "COMPLETED", 0, none, none⟩ := by
  refine ⟨?_, rfl, rfl⟩
  simp only [parseAvatarInfo, Option.getD_none]
  rw [show validate_status "ACTIVE" = .ok "ACTIVE" from rfl]

/-- Claim C9: a create-session-token success payload whose data mapping is
missing or lacks the token key yields HTTP 201 with the empty token and
the error field copied from the payload. -/
theorem c9_token_default (expires : Option Int) (resp : RawTokenPayload)
    (h : resp.data = none ∨ ∃ d, resp.data = some d ∧ d.token = none) :
    create_session_token expires (fun _ => .ok resp) = .ok (201, ⟨"", resp.error⟩) := by
  rcases h with h | ⟨d, hd, ht⟩
  · simp [create_session_token, create_session_token_success, h]
  · simp [create_session_token, create_session_token_success, hd, ht]

/-- Witness for C9 on a concrete payload with no data mapping. -/
theorem c9_token_default_witness :
    create_session_token (some 120) (fun _ => .ok ⟨none, some [("code", "10013")]⟩)
      = .ok (201, ⟨"", some [("code", "10013")]⟩) :=
  c9_token_default (some 120) ⟨none, some [("code", "10013")]⟩ (Or.inl rfl)

/-- Claim C10: whenever the upstream interrupt call returns without
raising, the handler returns the constant success body, whatever the
upstream payload was. -/
theorem c10_interrupt_constant (payload : List (String × String)) :
    interrupt_task (.ok payload) = .ok (200, ⟨true, "Interrupt signal sent successfully"⟩) :=
  rfl

/-- Helper: normalization distributes over list append. -/
theorem normalizeHistoryData_append (l1 l2 : List RawHistoryEntry) :
    normalizeHistoryData (l1 ++ l2) = normalizeHistoryData l1 ++ normalizeHistoryData l2 := by
  simp [normalizeHistoryData, List.filterMap_append]

/-- Helper: a well-formed list (every entry has session_id and created_at)
normalizes without loss. -/
theorem normalizeHistoryData_length_of_wf (l : List RawHistoryEntry)
    (h : ∀ x ∈ l, x.session_id.isSome ∧ x.created_at.isSome) :
    (normalizeHistoryData l).length = l.length := by
  induction l with
  | nil => rfl
  | cons a t ih =>
    obtain ⟨h1, h2⟩ := h a (by simp)
    obtain ⟨sid, hs⟩ := Option.isSome_iff_exists.mp h1
    obtain ⟨ca, hc⟩ := Option.isSome_iff_exists.mp h2
    have ht := ih (fun x hx => h x (by simp [hx]))
    simp [normalizeHistoryData, List.filterMap_cons, normalizeHistoryEntry, hs, hc] at ht ⊢
    exact ht

/-- Claim C5: with exactly one raw entry lacking session_id and every
other entry well-formed, the normalized history list has length N-1 and
excludes that entry; pagination limit and offset echo the request
parameters, not the upstream payload. -/
theorem c5_history_filtering (pre post : List RawHistoryEntry) (bad : RawHistoryEntry)
    (hbad : bad.session_id = none)
    (hwf : ∀ x ∈ pre ++ post, x.session_id.isSome ∧ x.created_at.isSome) :
    (normalizeHistoryData (pre ++ bad :: post)).length = (pre ++ bad :: post).length - 1 ∧
    normalizeHistoryData (pre ++ bad :: post) = normalizeHistoryData (pre ++ post) ∧
    ∀ (resp : RawHistoryPayload) (limit offset : Int),
      (list_sessions_history_success resp limit offset).pagination.limit = limit ∧
      (list_sessions_history_success resp limit offset).pagination.offset = offset := by
  have hfb : normalizeHistoryEntry bad = none := by
    simp [normalizeHistoryEntry, hbad]
  have hsplit : normalizeHistoryData (pre ++ bad :: post)
      = normalizeHistoryData pre ++ normalizeHistoryData post := by
    rw [normalizeHistoryData_append]
    simp [normalizeHistoryData, List.filterMap_cons, hfb]
  have hpre : ∀ x ∈ pre, x.session_id.isSome ∧ x.created_at.isSome :=
    fun x hx => hwf x (List.mem_append_left _ hx)
  have hpost : ∀ x ∈ post, x.session_id.isSome ∧ x.created_at.isSome :=
    fun x hx => hwf x (List.mem_append_right _ hx)
  refine ⟨?_, ?_, ?_⟩
  · rw [hsplit]
    simp [List.length_append, normalizeHistoryData_length_of_wf pre hpre,
      normalizeHistoryData_length_of_wf post hpost]
  · rw [hsplit, normalizeHistoryData_append]
  · intro resp limit offset
    exact ⟨rfl, rfl⟩

/-- Witness for C5: a two-entry raw list whose second entry lacks
session_id normalizes to the single well-formed entry, and the pagination
echoes the request values 10 and 0. -/
theorem c5_history_filtering_witness :
    (normalizeHistoryData [⟨some "a", some 1, none, none, none, none, none⟩,
        ⟨none, some 2, none, none, none, none, none⟩]).length = 1 ∧
    normalizeHistoryData [⟨some "a", some 1, none, none, none, none, none⟩,
        ⟨none, some 2, none, none, none, none, none⟩]
      = normalizeHistoryData [⟨some "a", some 1, none, none, none, none, none⟩] ∧
    (list_sessions_history_success ⟨none, none, none, none⟩ 10 0).pagination.limit = 10 ∧
    (list_sessions_history_success ⟨none, none, none, none⟩ 10 0).pagination.offset = 0 := by
  have h := c5_history_filtering [⟨some "a", some 1, none, none, none, none, none⟩] []
    ⟨none, some 2, none, none, none, none, none⟩ rfl
    (by intro x hx; simp at hx; subst hx; exact ⟨rfl, rfl⟩)
  exact ⟨h.1, h.2.1, (h.2.2 ⟨none, none, none, none⟩ 10 0).1,
    (h.2.2 ⟨none, none, none, none⟩ 10 0).2⟩

/-- Counterexample to claim C1: create_session_token has no clause for
HeyGenValidationError, so an upstream validation error carrying no
status_code attribute falls to the generic API clause and returns 500,
not the 400 the section 4.1 table mandates. -/
theorem c1_counterexample :
    create_session_token_onError ⟨.heyGenValidationError, "bad input", none, none⟩
      = ⟨500, .str "bad input"⟩ ∧
    (create_session_token_onError
      ⟨.heyGenValidationError, "bad input", none, none⟩).status_code ≠ 400 := by
  exact ⟨rfl, by decide⟩

/-- Claim C1 as amended: each handler maps the kinds it installs a clause
for exactly per the section 4.1 table, while kinds without a dedicated
clause fall to the Server/GenericAPI clause (carried status_code, else
500); the detail text carries the original error message for classified
kinds except the fixed-text NotFound clause of start_session and the
fixed generic message of every catch-all clause. -/
theorem c1_error_mapping_amended (h : HandlerId) (sid : String) (e : PyError) :
    (handlerOnError h sid e).status_code = specAmendedStatus h e ∧
    (handlerOnError h sid e).detail.messageText = specAmendedMessage h sid e := by
  rcases e with ⟨cls, m, c, d⟩
  cases h <;> cases cls <;> exact ⟨rfl, rfl⟩

/-- Counterexample to claim C2: the keep_alive handler raises its
HTTPException with detail = str(e), a bare string and not a structured
object with a message field. -/
theorem c2_counterexample :
    keep_alive_onError ⟨.authenticationError, "Invalid API key", none, none⟩
      = ⟨401, .str "Invalid API key"⟩ ∧
    (keep_alive_onError
      ⟨.authenticationError, "Invalid API key", none, none⟩).detail.isObj = false := by
  exact ⟨rfl, rfl⟩

/-- Claim C2 as amended: send_task, the three list handlers, new_sessions
and start_session always raise structured object details, while
create_session_token, keep_alive, close_session and interrupt_task always
raise bare-string details. -/
theorem c2_detail_shape_amended (sid : String) (e : PyError) :
    (send_task_onError e).detail.isObj = true ∧
    (list_avatars_onError e).detail.isObj = true ∧
    (list_sessions_active_onError e).detail.isObj = true ∧
    (list_sessions_history_onError e).detail.isObj = true ∧
    (new_sessions_onError e).detail.isObj = true ∧
    (start_session_onError sid e).detail.isObj = true ∧
    (create_session_token_onError e).detail.isObj = false ∧
    (keep_alive_onError e).detail.isObj = false ∧
    (close_session_onError e).detail.isObj = false ∧
    (interrupt_task_onError e).detail.isObj = false := by
  rcases e with ⟨cls, m, c, d⟩
  cases cls <;> exact ⟨rfl, rfl, rfl, rfl, rfl, rfl, rfl, rfl, rfl, rfl⟩

/-- Claim C3, evaluated at the failing input: the endpoint signature
carries no bounds on expires_in, so 59 is not rejected locally but
forwarded to the upstream client (the probe upstream function echoes the
forwarded value into the token, and the handler answers 201); the unused
CreateTokenRequest model, which the claim and the handler docstring
describe, would have rejected 59; 60 and 86400 are accepted by both, and
an omitted expires_in resolves to 3600. -/
theorem c3_expires_in_not_enforced :
    create_session_token_upstream_arg (some 59) = 59 ∧
    CreateTokenRequest.check_expires (some 59) = false ∧
    create_session_token (some 59) (fun v => .ok ⟨some ⟨some (toString v)⟩, none⟩)
      = .ok (201, ⟨"59", none⟩) ∧
    create_session_token_upstream_arg none = 3600 ∧
    CreateTokenRequest.check_expires none = true ∧
    create_session_token_upstream_arg (some 60) = 60 ∧
    CreateTokenRequest.check_expires (some 60) = true ∧
    create_session_token_upstream_arg (some 86400) = 86400 ∧
    CreateTokenRequest.check_expires (some 86400) = true := by
  refine ⟨rfl, by decide, ?_, rfl, rfl, rfl, by decide, rfl, by decide⟩
  rfl

/-- Counterexample to claim C4: the active-session model SessionInfo has
no status validator, so an upstream status string far outside any declared
enumeration is accepted and passed through to the caller unchanged. -/
theorem c4_counterexample :
    parseSessionInfo ⟨some "s1", some "NOT_A_REAL_STATUS", some 1⟩
      = .ok ⟨"s1", "NOT_A_REAL_STATUS", 1⟩ ∧
    "NOT_A_REAL_STATUS" ∉ (["new", "connecting", "connected"] : List String) := by
  exact ⟨rfl, by decide⟩

/-- Claim C4 as amended: status fields are plain strings, not enumeration
members; any upstream status string is passed through for active and
history sessions, and any status that is non-empty after stripping is
accepted (stripped and upper-cased) for avatars. -/
theorem c4_status_passthrough_amended (sid st aid : String) (ca : Int) :
    parseSessionInfo ⟨some sid, some st, some ca⟩ = .ok ⟨sid, st, ca⟩ ∧
    normalizeHistoryEntry ⟨some sid, some ca, none, some st, none, none, none⟩
      = some ⟨sid, ca, none, st, 0, none, none⟩ ∧
    (pyStrip st ≠ "" →
      parseAvatarInfo ⟨some aid, some ca, none, some st⟩
        = .ok ⟨aid, ca, true, pyUpper (pyStrip st)⟩) := by
  refine ⟨rfl, rfl, fun h => ?_⟩
  simp only [parseAvatarInfo, Option.getD_some]
  simp [validate_status, h]

/-- Witness for C4 at a concrete undocumented status value. -/
theorem c4_status_passthrough_amended_witness :
    parseSessionInfo ⟨some "s", some "UNDOCUMENTED_STATE", some 7⟩
      = .ok ⟨"s", "UNDOCUMENTED_STATE", 7⟩ ∧
    parseAvatarInfo ⟨some "a", some 7, none, some "UNDOCUMENTED_STATE"⟩
      = .ok ⟨"a", 7, true, "UNDOCUMENTED_STATE"⟩ := by
  have h := c4_status_passthrough_amended "s" "UNDOCUMENTED_STATE" "a" 7
  refine ⟨h.1, ?_⟩
  have h2 := h.2.2 (by decide)
  rw [show pyUpper (pyStrip "UNDOCUMENTED_STATE") = "UNDOCUMENTED_STATE" from by decide] at h2
  exact h2

/-- Counterexample to claim C8: SessionInfo stores an upstream session
status verbatim, neither stripped nor upper-cased, and SessionHistoryInfo
accepts an empty status string. -/
theorem c8_counterexample :
    parseSessionInfo ⟨some "s", some " connected ", some 5⟩
      = .ok ⟨"s", " connected ", 5⟩ ∧
    pyUpper (pyStrip " connected ") = "CONNECTED" ∧
    (" connected " : String) ≠ "CONNECTED" ∧
    normalizeHistoryEntry ⟨some "h", some 3, none, some "", none, none, none⟩
      = some ⟨"h", 3, none, "", 0, none, none⟩ := by
  exact ⟨rfl, by decide, by decide, rfl⟩

/-- Claim C8 as amended: only avatar status strings are stripped and
upper-cased with empty-after-strip rejected; active-session and
history-session status strings are stored verbatim with no validation. -/
theorem c8_status_normalization_amended (s sid : String) (ca : Int) :
    (pyStrip s = "" → validate_status s = .error "Status cannot be empty") ∧
    (pyStrip s ≠ "" → validate_status s = .ok (pyUpper (pyStrip s))) ∧
    parseSessionInfo ⟨some sid, some s, some ca⟩ = .ok ⟨sid, s, ca⟩ ∧
    normalizeHistoryEntry ⟨some sid, some ca, none, some s, none, none, none⟩
      = some ⟨sid, ca, none, s, 0, none, none⟩ := by
  refine ⟨fun h => ?_, fun h => ?_, rfl, rfl⟩
  · simp [validate_status, h]
  · simp [validate_status, h]

/-- Witness for C8 at concrete avatar status strings. -/
theorem c8_status_normalization_amended_witness :
    validate_status "   " = .error "Status cannot be empty" ∧
    validate_status " inactive" = .ok "INACTIVE" := by
  refine ⟨(c8_status_normalization_amended "   " "x" 0).1 (by decide), ?_⟩
  have h := (c8_status_normalization_amended " inactive" "x" 0).2.1 (by decide)
  rw [show pyUpper (pyStrip " inactive") = "INACTIVE" from by decide] at h
  exact h
